import Mathlib

/-!
Shallow embedding of the business-metrics dashboard (`src/main.py`).

Tables fetched from the hosted backend are modelled as `DataFrame`: an
explicit column-name list together with rows of cells, because pandas
semantics on a columnless empty frame (`pd.DataFrame()`, returned both
for a zero-row result and on a fetch error) matter for the claims:
selecting a missing column raises `KeyError`, which we model with
`Except`.  Typed row lists (`Sale`, `Product`) model the sales/products
tables where the claims only concern well-formed rows.  Python floats on
the `amount`/`price` columns are modelled as exact rationals; timestamps
as an optional calendar date (`none` is pandas `NaT`).  The external
collaborators (supabase client, `random` module, `hash`) are passed in
as explicit functional parameters.
-/

namespace BusinessApp

/-! ### Calendar dates (pandas timestamps, day granularity) -/

structure Date where
  year : Nat
  month : Nat
  day : Nat
deriving DecidableEq, Repr

/-- Lexicographic order on (year, month, day), as pandas compares timestamps. -/
def dateLe (a b : Date) : Bool :=
  if a.year ≠ b.year then decide (a.year < b.year)
  else if a.month ≠ b.month then decide (a.month < b.month)
  else decide (a.day ≤ b.day)

def maxOptDate (acc v : Option Date) : Option Date :=
  match acc, v with
  | none, v => v
  | some a, none => some a
  | some a, some b => if dateLe a b then some b else some a

/-- Maximum of a column of timestamps, skipping `NaT` entries, as
`Series.max` does. -/
def maxDate (l : List (Option Date)) : Option Date :=
  l.foldl maxOptDate none

def splitOnChar (c : Char) : List Char → List (List Char)
  | [] => [[]]
  | x :: xs =>
    let r := splitOnChar c xs
    if x = c then [] :: r
    else
      match r with
      | [] => [[x]]
      | h :: t => (x :: h) :: t

def digitsToNat (cs : List Char) : Option Nat :=
  if cs ≠ [] ∧ cs.all Char.isDigit then
    some (cs.foldl (fun n c => 10 * n + (c.toNat - 48)) 0)
  else none

/-- `pd.to_datetime(_, errors="coerce")` restricted to the ISO
`YYYY-MM-DD` text form used by the backend; anything unparseable
becomes `none` (`NaT`), never an error (main.py lines 105-108). -/
def parseDate (s : String) : Option Date :=
  match splitOnChar '-' s.toList with
  | [y, m, d] =>
    match digitsToNat y, digitsToNat m, digitsToNat d with
    | some yn, some mn, some dn =>
      if 1 ≤ mn ∧ mn ≤ 12 ∧ 1 ≤ dn ∧ dn ≤ 31 then some ⟨yn, mn, dn⟩ else none
    | _, _, _ => none
  | _ => none

def pad2 (n : Nat) : String :=
  if n < 10 then "0" ++ toString n else toString n

def pad4 (n : Nat) : String :=
  if n < 10 then "000" ++ toString n
  else if n < 100 then "00" ++ toString n
  else if n < 1000 then "0" ++ toString n
  else toString n

/-- `Timestamp.strftime("%Y-%m-%d")` (main.py line 269). -/
def formatDate (d : Date) : String :=
  pad4 d.year ++ "-" ++ pad2 d.month ++ "-" ++ pad2 d.day

/-- `.dt.to_period("M").dt.to_timestamp()`: truncate to first of month
(main.py line 295). -/
def monthStart (d : Date) : Date :=
  ⟨d.year, d.month, 1⟩

/-! ### Python string helpers -/

/-- Python `str.lower()`. -/
def strLower (s : String) : String :=
  ⟨s.toList.map Char.toLower⟩

/-- `pat` occurs as a contiguous sublist of `s`. -/
def listContains (pat : List Char) : List Char → Bool
  | [] => pat.isEmpty
  | c :: tl => pat.isPrefixOf (c :: tl) || listContains pat tl

/-- Python substring test `pat in s` / `Series.str.contains` (plain,
non-regex occurrence as used with the lowered query). -/
def strContainsSub (s pat : String) : Bool :=
  listContains pat.toList s.toList

/-! ### DataFrames -/

inductive Value where
  | str (s : String)
  | num (q : ℚ)
  | ts (d : Option Date)
deriving DecidableEq, Repr

structure DataFrame where
  cols : List String
  rows : List (List Value)
deriving DecidableEq, Repr

/-- `pd.DataFrame()` / `pd.DataFrame([])`: no columns, no rows. -/
def DataFrame.empty : DataFrame :=
  ⟨[], []⟩

/-- Position of column `c`, `none` when the column is absent (pandas
raises `KeyError` on access then). -/
def DataFrame.colIdx (df : DataFrame) (c : String) : Option Nat :=
  df.cols.findIdx? (· == c)

/-- Cell of row `r` in column position `i`; rows of a well-formed frame
are aligned with `cols`, so the default is never read. -/
def cellAt (r : List Value) (i : Nat) : Value :=
  r.getD i (Value.str "")

def cellStrOf (v : Value) : String :=
  match v with
  | Value.str s => s
  | _ => ""

def cellDate (v : Value) : Option Date :=
  match v with
  | Value.ts d => d
  | _ => none

/-! ### Data fetching and ingestion (main.py lines 96-108, 203-206) -/

/-- `fetch_table` (main.py lines 96-103).  The supabase select-all call
is the parameter `req`; the second component is the list of messages
shown via `st.error`.  The function is total: a failed request becomes
the empty frame plus a warning, never a propagated exception. -/
def fetch_table (tableName : String) (req : String → Except String DataFrame) :
    DataFrame × List String :=
  match req tableName with
  | Except.ok df => (df, [])
  | Except.error e => (DataFrame.empty, ["Error fetching " ++ tableName ++ ": " ++ e])

/-- Cell-level `pd.to_datetime(_, errors="coerce")`. -/
def tsCell (v : Value) : Value :=
  Value.ts
    (match v with
     | Value.str s => parseDate s
     | Value.ts d => d
     | Value.num _ => none)

/-- `parse_dates` (main.py lines 105-108): convert column `c` to
timestamps when present, otherwise return the frame unchanged. -/
def parse_dates (df : DataFrame) (c : String) : DataFrame :=
  match df.colIdx c with
  | none => df
  | some i => { df with rows := df.rows.map (fun r => r.set i (tsCell (cellAt r i))) }

/-- Rename `joined_on` to `joined_at` when present (main.py lines 205-206). -/
def renameJoined (df : DataFrame) : DataFrame :=
  if "joined_on" ∈ df.cols then
    { df with cols := df.cols.map (fun c => if c = "joined_on" then "joined_at" else c) }
  else df

/-! ### Customer aggregators (main.py lines 260-302) -/

/-- `len(customers_df)` (main.py line 265). -/
def customer_count (df : DataFrame) : Nat :=
  df.rows.length

/-- Newest-customer metric (main.py lines 267-271): `"—"` sentinel on an
empty frame, otherwise `max(joined_at)` formatted `YYYY-MM-DD`; errors
model the `KeyError` on a missing column and the `strftime` failure on
an all-`NaT` column. -/
def newest_customer (df : DataFrame) : Except String String :=
  if df.rows.isEmpty then Except.ok "—"
  else
    match df.colIdx "joined_at" with
    | none => Except.error "KeyError: joined_at"
    | some i =>
      match maxDate (df.rows.map (fun r => cellDate (cellAt r i))) with
      | some d => Except.ok (formatDate d)
      | none => Except.error "NaTType strftime"

/-- Monthly cohort counts (main.py lines 293-296): truncate `joined_at`
to the month start, group, count rows; `NaT` rows are dropped by the
groupby.  Grouping order is irrelevant to the claims. -/
def customers_per_month (df : DataFrame) : Except String (List (Date × Nat)) :=
  match df.colIdx "joined_at" with
  | none => Except.error "KeyError: joined_at"
  | some i =>
    let months :=
      ((df.rows.map (fun r => cellDate (cellAt r i))).filterMap id).map monthStart
    Except.ok (months.dedup.map (fun m => (m, (months.filter (· == m)).length)))

/-- Customer search (main.py lines 278-286).  An empty query is falsy in
Python, so the frame passes through unfiltered; a non-empty query
accesses the `name` and `email` columns (in that order), which raises
`KeyError` when a column is absent, and keeps the rows where the lowered
name or email contains the lowered query. -/
def search_customers (df : DataFrame) (q : String) : Except String DataFrame :=
  if q = "" then Except.ok df
  else
    match df.colIdx "name" with
    | none => Except.error "KeyError: name"
    | some i =>
      match df.colIdx "email" with
      | none => Except.error "KeyError: email"
      | some j =>
        Except.ok
          { df with
            rows := df.rows.filter (fun r =>
              strContainsSub (strLower (cellStrOf (cellAt r i))) (strLower q)
              || strContainsSub (strLower (cellStrOf (cellAt r j))) (strLower q)) }

/-! ### Sales and product aggregators (main.py lines 216-218, 229-231, 316-317) -/

structure Sale where
  product : String
  amount : ℚ
  date : Option Date
deriving DecidableEq, Repr

/-- `sales_df["amount"].astype(float).sum() if not sales_df.empty else 0`
(main.py lines 216-218). -/
def total_revenue (sales : List Sale) : ℚ :=
  if sales.isEmpty then 0 else (sales.map Sale.amount).sum

/-- `sales_df.groupby("product")["amount"].sum()` (main.py line 230):
one row per distinct product with the sum of its amounts.  pandas sorts
the group keys; the claims are order-independent, so we enumerate the
distinct keys with `dedup`. -/
def revenue_by_product (sales : List Sale) : List (String × ℚ) :=
  (sales.map Sale.product).dedup.map (fun p =>
    (p, ((sales.filter (fun s => s.product == p)).map Sale.amount).sum))

structure Product where
  name : String
  price : ℚ
  stock : Int
deriving DecidableEq, Repr

/-- `products_df[products_df["stock"] <= thresh]` (main.py line 317), on
the well-formed product rows; the source applies it only under the
non-empty guard at line 310. -/
def low_stock (products : List Product) (threshold : Int) : List Product :=
  products.filter (fun p => decide (p.stock ≤ threshold))

/-! ### Auth gateway and login screen (main.py lines 56-91) -/

structure SessionState where
  user : Option String
  email : Option String
deriving DecidableEq, Repr

inductive SignInResult where
  | success (u : String)
  | failure (msg : String)
deriving DecidableEq, Repr

/-- `supabase_sign_in` (main.py lines 56-65).  The provider call is the
parameter `provider`: `ok (some u)` a non-null user, `ok none` a null
user, `error e` a raised exception with message `e`.  Session state is
written only in the non-null-user branch. -/
def supabase_sign_in (st : SessionState) (email : String)
    (provider : Except String (Option String)) : SignInResult × SessionState :=
  match provider with
  | Except.ok (some u) =>
    (SignInResult.success u, { st with user := some u, email := some email })
  | Except.ok none => (SignInResult.failure "Login failed.", st)
  | Except.error e => (SignInResult.failure e, st)

structure LoginOutcome where
  providerCalled : Bool
  messages : List String
  session : SessionState
deriving DecidableEq, Repr

/-- The submit branch of `login_screen` (main.py lines 82-91): empty
email or password (falsy in Python) short-circuits with a validation
message and no provider call; otherwise the sign-in result is mapped to
a fixed success or failure message. -/
def login_screen (st : SessionState) (email password : String)
    (provider : Except String (Option String)) : LoginOutcome :=
  if email = "" ∨ password = "" then
    { providerCalled := false, messages := ["Please fill all fields."], session := st }
  else
    match supabase_sign_in st email provider with
    | (SignInResult.success _, st1) =>
      { providerCalled := true, messages := ["Login successful!"], session := st1 }
    | (SignInResult.failure _, st1) =>
      { providerCalled := true, messages := ["Invalid email or password"], session := st1 }

/-! ### Service status mini-charts (main.py lines 110-124, 166-168)

The Python `random` module is a global generator: `next` is its state
transition (one raw draw), `seedInit` the state installed by
`random.seed`, both opaque parameters; `hashFn` is the run's string
hash.  `randint(5, 35)` is a draw mapped into the 31-value range. -/

def randint_5_35 (next : Nat → Nat × Nat) (st : Nat) : Nat × Nat :=
  (5 + (next st).1 % 31, (next st).2)

/-- `[random.randint(5, 35) for _ in range(n)]` with explicit generator
state threading. -/
def drawSeq (next : Nat → Nat × Nat) : Nat → Nat → List Nat × Nat
  | 0, st => ([], st)
  | n + 1, st =>
    let r := randint_5_35 next st
    let rest := drawSeq next n r.2
    (r.1 :: rest.1, rest.2)

/-- `mini_chart` data (main.py lines 110-117): when a seed is given the
generator is re-seeded first, so the incoming state `st` is ignored;
then 12 points are drawn. -/
def mini_chart_data (next : Nat → Nat × Nat) (seedInit : Nat → Nat)
    (seed : Option Nat) (st : Nat) : List Nat × Nat :=
  drawSeq next 12 (match seed with | some s => seedInit s | none => st)

/-- `abs(hash(name)) % 10000` (main.py line 167). -/
def seedOf (hashFn : String → Int) (name : String) : Nat :=
  (hashFn name).natAbs % 10000

/-- The data sequence a service card's mini-chart renders (main.py
line 168): `mini_chart(seed=seedOf name)` from generator state `st`. -/
def service_card_data (next : Nat → Nat × Nat) (seedInit : Nat → Nat)
    (hashFn : String → Int) (name : String) (st : Nat) : List Nat :=
  (mini_chart_data next seedInit (some (seedOf hashFn name)) st).1

/-! ### Concrete tables used by the scenario claims -/

/-- The raw customers table of spec Scenario 3, as fetched. -/
def annRaw : DataFrame :=
  ⟨["name", "email", "joined_on"],
   [[Value.str "Ann", Value.str "a@x.com", Value.str "2024-02-15"]]⟩

/-- Scenario 3 table after ingestion (main.py lines 203-206): date
parsing on `joined_on`, then the rename to `joined_at`. -/
def annIngested : DataFrame :=
  renameJoined (parse_dates annRaw "joined_on")

/-- A one-row customers table whose email is `A@B.com`. -/
def demoCustomers : DataFrame :=
  ⟨["name", "email"], [[Value.str "Ann", Value.str "A@B.com"]]⟩

end BusinessApp

namespace BusinessApp

/-! ## Helper lemmas -/

theorem sum_amount_split (l : List Sale) (p : Sale → Bool) :
    ((l.filter p).map Sale.amount).sum
      + ((l.filter (fun s => !(p s))).map Sale.amount).sum
      = (l.map Sale.amount).sum := by
  induction l with
  | nil => simp
  | cons s t ih =>
    by_cases h : p s = true
    · simp [List.filter_cons, h]
      linarith [ih]
    · have h0 : p s = false := by simpa using h
      simp [List.filter_cons, h0]
      linarith [ih]

theorem filter_key_of_ne (l : List Sale) (p q : String) (h : q ≠ p) :
    (l.filter (fun s => !(s.product == p))).filter (fun s => s.product == q)
      = l.filter (fun s => s.product == q) := by
  induction l with
  | nil => rfl
  | cons s t ih =>
    by_cases hsq : s.product = q
    · have h1 : (s.product == q) = true := beq_iff_eq.mpr hsq
      have h2 : (s.product == p) = false :=
        beq_eq_false_iff_ne.mpr (fun hh => h (hsq.symm.trans hh))
      simp [List.filter_cons, h1, h2, ih]
    · have h1 : (s.product == q) = false := beq_eq_false_iff_ne.mpr hsq
      by_cases hsp : s.product = p
      · have h2 : (s.product == p) = true := beq_iff_eq.mpr hsp
        simp [List.filter_cons, h1, h2, ih]
      · have h2 : (s.product == p) = false := beq_eq_false_iff_ne.mpr hsp
        simp [List.filter_cons, h1, h2, ih]

theorem sum_map_congr {α : Type} (l : List α) (f g : α → ℚ)
    (h : ∀ a ∈ l, f a = g a) : (l.map f).sum = (l.map g).sum := by
  induction l with
  | nil => rfl
  | cons a t ih =>
    rw [List.map_cons, List.map_cons, List.sum_cons, List.sum_cons,
      h a (List.mem_cons_self a t),
      ih (fun x hx => h x (List.mem_cons_of_mem a hx))]

theorem sum_over_keys (ks : List String) (l : List Sale)
    (hnd : ks.Nodup) (hcov : ∀ s ∈ l, s.product ∈ ks) :
    (ks.map (fun p => ((l.filter (fun s => s.product == p)).map Sale.amount).sum)).sum
      = (l.map Sale.amount).sum := by
  induction ks generalizing l with
  | nil =>
    cases l with
    | nil => simp
    | cons s t => exact absurd (hcov s (List.mem_cons_self s t)) (List.not_mem_nil _)
  | cons p ks ih =>
    have hp : p ∉ ks := (List.nodup_cons.mp hnd).1
    have hnd2 : ks.Nodup := (List.nodup_cons.mp hnd).2
    rw [List.map_cons, List.sum_cons]
    have htail :
        (ks.map (fun q => ((l.filter (fun s => s.product == q)).map Sale.amount).sum)).sum
          = (ks.map (fun q =>
              (((l.filter (fun s => !(s.product == p))).filter
                (fun s => s.product == q)).map Sale.amount).sum)).sum := by
      apply sum_map_congr
      intro q hq
      have hqp : q ≠ p := fun he => hp (he ▸ hq)
      rw [filter_key_of_ne l p q hqp]
    rw [htail]
    rw [ih (l.filter (fun s => !(s.product == p))) hnd2 ?cov]
    case cov =>
      intro s hs
      have hm := List.mem_filter.mp hs
      have hin := hcov s hm.1
      cases List.mem_cons.mp hin with
      | inl he =>
        exfalso
        have : (s.product == p) = true := by simp [he]
        simp [this] at hm
      | inr he => exact he
    exact sum_amount_split l (fun s => s.product == p)

theorem drawSeq_length (next : Nat → Nat × Nat) :
    ∀ n st : Nat, (drawSeq next n st).1.length = n := by
  intro n
  induction n with
  | zero => intro st; rfl
  | succ n ih => intro st; simp [drawSeq, ih]

/-! ## Claim theorems -/

/-- C1, as stated, is false on the code: on the empty (columnless)
customers frame, a non-empty search query accesses the missing `name`
column and fails with a `KeyError` rather than returning an empty
table. -/
theorem C1_counterexample :
    search_customers DataFrame.empty "a" = Except.error "KeyError: name" := rfl

/-- C1 (amended): on empty input, `low_stock` returns the empty row
set, `total_revenue` returns 0 and `customer_count` returns 0; but
`search_customers` with any non-empty query on the empty customers
frame fails with `KeyError: name` instead of returning an empty
table. -/
theorem C1_empty_table_aggregators :
    (∀ k : Int, low_stock [] k = [])
    ∧ total_revenue [] = 0
    ∧ customer_count DataFrame.empty = 0
    ∧ ∀ q : String, q ≠ "" →
        search_customers DataFrame.empty q = Except.error "KeyError: name" := by
  refine ⟨fun k => rfl, rfl, rfl, fun q hq => ?_⟩
  unfold search_customers
  rw [if_neg hq]
  rfl

theorem C1_witness :
    low_stock [] 5 = []
    ∧ search_customers DataFrame.empty "ann" = Except.error "KeyError: name" :=
  ⟨C1_empty_table_aggregators.1 5, C1_empty_table_aggregators.2.2.2 "ann" (by decide)⟩

/-- C2: summing the per-product amounts of `revenue_by_product` over
all products yields exactly `total_revenue`, for every sales table. -/
theorem C2_revenue_by_product_total (sales : List Sale) :
    ((revenue_by_product sales).map Prod.snd).sum = total_revenue sales := by
  unfold revenue_by_product total_revenue
  rw [List.map_map]
  cases sales with
  | nil => simp
  | cons s t =>
    rw [if_neg (by simp)]
    have h := sum_over_keys ((s :: t).map Sale.product).dedup (s :: t)
      (List.nodup_dedup _)
      (fun x hx => List.mem_dedup.mpr (List.mem_map_of_mem Sale.product hx))
    simpa [Function.comp] using h

/-- C3: the empty query is falsy, so `search_customers` returns the
customers table unchanged — the identity law. -/
theorem C3_search_empty_query_identity (df : DataFrame) :
    search_customers df "" = Except.ok df := rfl

/-- C4: matching is case-insensitive on name or email: in any customers
frame, a row whose email cell is `A@B.com` is kept by the query
`a@b`. -/
theorem C4_case_insensitive_match (df : DataFrame) (i j : Nat) (r : List Value)
    (hi : df.colIdx "name" = some i) (hj : df.colIdx "email" = some j)
    (hr : r ∈ df.rows) (hv : cellAt r j = Value.str "A@B.com") :
    ∃ df2, search_customers df "a@b" = Except.ok df2 ∧ r ∈ df2.rows := by
  have hne : ¬("a@b" = "") := by decide
  have hres : search_customers df "a@b" = Except.ok
      { df with
        rows := df.rows.filter (fun r =>
          strContainsSub (strLower (cellStrOf (cellAt r i))) (strLower "a@b")
          || strContainsSub (strLower (cellStrOf (cellAt r j))) (strLower "a@b")) } := by
    unfold search_customers
    rw [if_neg hne, hi, hj]
  refine ⟨_, hres, List.mem_filter.mpr ⟨hr, ?_⟩⟩
  rw [hv]
  rw [show strContainsSub (strLower (cellStrOf (Value.str "A@B.com")))
        (strLower "a@b") = true from rfl]
  exact Bool.or_true _

theorem C4_witness :
    ∃ df2, search_customers demoCustomers "a@b" = Except.ok df2
      ∧ [Value.str "Ann", Value.str "A@B.com"] ∈ df2.rows :=
  C4_case_insensitive_match demoCustomers 0 1
    [Value.str "Ann", Value.str "A@B.com"] rfl rfl (List.mem_singleton.mpr rfl) rfl

/-- C5: when the select-all request fails, `fetch_table` reports the
error message on the display surface and returns the empty frame; the
function is total, so no exception reaches the caller. -/
theorem C5_fetch_failure_returns_empty (name : String)
    (req : String → Except String DataFrame) (e : String)
    (h : req name = Except.error e) :
    fetch_table name req =
      (DataFrame.empty, ["Error fetching " ++ name ++ ": " ++ e]) := by
  unfold fetch_table
  rw [h]

theorem C5_witness :
    fetch_table "customers" (fun _ => Except.error "relation does not exist") =
      (DataFrame.empty, ["Error fetching customers: relation does not exist"]) :=
  C5_fetch_failure_returns_empty "customers"
    (fun _ => Except.error "relation does not exist") "relation does not exist" rfl

/-- C6: a failed sign-in (null user or provider exception) leaves the
session unchanged; `user`/`email` are written only on success with a
non-null user. -/
theorem C6_failed_sign_in_preserves_session (st : SessionState) (email : String)
    (provider : Except String (Option String)) :
    (∀ msg, (supabase_sign_in st email provider).1 = SignInResult.failure msg →
      (supabase_sign_in st email provider).2 = st)
    ∧ ∀ u, (supabase_sign_in st email provider).1 = SignInResult.success u →
      (supabase_sign_in st email provider).2 =
        { st with user := some u, email := some email } := by
  constructor
  · intro msg h
    cases provider with
    | ok o =>
      cases o with
      | none => rfl
      | some u => simp [supabase_sign_in] at h
    | error e => rfl
  · intro u h
    cases provider with
    | ok o =>
      cases o with
      | none => simp [supabase_sign_in] at h
      | some v =>
        simp [supabase_sign_in] at h
        subst h
        rfl
    | error e => simp [supabase_sign_in] at h

theorem C6_witness :
    (supabase_sign_in ⟨none, none⟩ "x@y.com" (Except.error "bad creds")).2
      = ⟨none, none⟩ :=
  (C6_failed_sign_in_preserves_session ⟨none, none⟩ "x@y.com"
    (Except.error "bad creds")).1 "bad creds" rfl

/-- C7: with an empty email or password the login screen makes no
provider call, shows the validation message, and the session is left
exactly as it was — in particular still logged out. -/
theorem C7_empty_fields_no_provider_call (st : SessionState) (email password : String)
    (provider : Except String (Option String)) (h : email = "" ∨ password = "") :
    login_screen st email password provider =
      { providerCalled := false, messages := ["Please fill all fields."], session := st }
    ∧ (st.user = none →
        (login_screen st email password provider).session.user = none) := by
  constructor
  · unfold login_screen
    rw [if_pos h]
  · intro hu
    unfold login_screen
    rw [if_pos h]
    exact hu

theorem C7_witness :
    login_screen ⟨none, none⟩ "a@b.com" "" (Except.ok (some "u1")) =
      { providerCalled := false, messages := ["Please fill all fields."],
        session := ⟨none, none⟩ } :=
  (C7_empty_fields_no_provider_call ⟨none, none⟩ "a@b.com" ""
    (Except.ok (some "u1")) (Or.inr rfl)).1

/-- C8: Scenario 3 — after ingestion the join-date column is renamed to
`joined_at`, the newest-customer metric renders `2024-02-15`, and the
monthly cohort table has exactly one entry, February 2024, count 1. -/
theorem C8_scenario_ann :
    annIngested.cols = ["name", "email", "joined_at"]
    ∧ newest_customer annIngested = Except.ok "2024-02-15"
    ∧ customers_per_month annIngested = Except.ok [(⟨2024, 2, 1⟩, 1)] :=
  ⟨rfl, rfl, rfl⟩

/-- C9: a service card's mini-chart data is a function of the service
name alone within a run: the seed derived from the name re-seeds the
generator, so the incoming generator state is irrelevant and the
12-point sequence is reproduced identically. -/
theorem C9_service_chart_deterministic (next : Nat → Nat × Nat)
    (seedInit : Nat → Nat) (hashFn : String → Int) (name : String) (st1 st2 : Nat) :
    service_card_data next seedInit hashFn name st1
      = service_card_data next seedInit hashFn name st2
    ∧ (service_card_data next seedInit hashFn name st1).length = 12 :=
  ⟨rfl, drawSeq_length next 12 (seedInit (seedOf hashFn name))⟩

/-- C10: every failed sign-in attempt with non-empty fields — null user
or provider exception alike — displays exactly the fixed message
`Invalid email or password`; the provider's own error text never
appears. -/
theorem C10_fixed_failure_message (st : SessionState) (email password : String)
    (provider : Except String (Option String)) (he : email ≠ "") (hp : password ≠ "")
    (hfail : provider = Except.ok none ∨ ∃ e, provider = Except.error e) :
    (login_screen st email password provider).messages
      = ["Invalid email or password"] := by
  have hcond : ¬(email = "" ∨ password = "") := by
    intro hcon
    cases hcon with
    | inl h => exact he h
    | inr h => exact hp h
  cases hfail with
  | inl h => subst h; simp [login_screen, supabase_sign_in, hcond]
  | inr h =>
    obtain ⟨e, h⟩ := h
    subst h
    simp [login_screen, supabase_sign_in, hcond]

theorem C10_witness :
    (login_screen ⟨none, none⟩ "a@b.com" "pw"
      (Except.error "Invalid login credentials")).messages
      = ["Invalid email or password"] :=
  C10_fixed_failure_message ⟨none, none⟩ "a@b.com" "pw"
    (Except.error "Invalid login credentials") (by decide) (by decide)
    (Or.inr ⟨"Invalid login credentials", rfl⟩)

end BusinessApp
